import Mathlib

/-!
Verification of the safetytni webhook intake and enrichment pipeline.

Shallow embedding of the repository sources:
  * `app/cache.py`        — `AsyncLRUCache` over `cachetools.LRUCache`
  * `app/services.py`     — `get_vehicle_unit`, `fetch_speeding_details`
  * `app/telegram_bot.py` — `kph_to_mph`, `process_alert`
  * `app/main.py`         — `motive_webhook` request handler
  * `app/models.py`       — `SpeedingEvent`

Machine floats are modelled by exact rationals; the external HTTP world is
modelled by an explicit response datatype, and network activity by a
boolean flag in each function result.  The cache is a list of key/value
pairs ordered most-recently-used first.
-/

namespace Safetytni

/-- Parsed JSON values, as produced by `json.loads` in `app/main.py` and by
`response.json()` in `app/services.py`.  Objects model the already-parsed
Python dict, so the field list is duplicate-free by construction of the
parser and is treated as an association list. -/
inductive Json where
  | null : Json
  | bool (b : Bool) : Json
  | num (q : Rat) : Json
  | str (s : String) : Json
  | arr (xs : List Json) : Json
  | obj (fields : List (String × Json)) : Json

/-- Python `dict.get(name)`: returns `None` both when the key is absent and
when the stored JSON value is `null` (both arrive as Python `None`). -/
def Json.getField (fields : List (String × Json)) (name : String) : Option Json :=
  match fields.find? (fun p => p.1 = name) with
  | some (_, Json.null) => none
  | some (_, v) => some v
  | none => none

/-- Python `isinstance(x, dict)` on a parsed JSON value. -/
def Json.isObj : Json → Bool
  | Json.obj _ => true
  | _ => false

/-- Python truthiness of a parsed JSON value (`bool(x)`). -/
def Json.truthy : Json → Bool
  | Json.null => false
  | Json.bool b => b
  | Json.num q => q ≠ 0
  | Json.str s => s ≠ ""
  | Json.arr xs => ¬ xs.isEmpty
  | Json.obj fs => ¬ fs.isEmpty

/-- Python truthiness lifted to `Option Json` (`None` is falsy). -/
def pyTruthy : Option Json → Bool
  | none => false
  | some j => j.truthy

/-- Python `a or b` on optional JSON values: returns `a` when truthy,
otherwise `b`. -/
def pyOr (a b : Option Json) : Option Json :=
  if pyTruthy a then a else b

/-! ## app/cache.py — AsyncLRUCache

`AsyncLRUCache` wraps `cachetools.LRUCache` behind an asyncio lock; the lock
serializes each individual operation, so the sequential semantics below is
the per-operation semantics.  Entries are kept most-recently-used first. -/

/-- The LRU cache state: capacity and entries ordered most-recently-used
first (`cachetools.LRUCache` move-to-front discipline). -/
structure LRUCache where
  maxsize : Nat
  entries : List (Int × String)
deriving Repr, DecidableEq

/-- Keys currently stored in the cache, most-recently-used first. -/
def LRUCache.keys (c : LRUCache) : List Int := c.entries.map Prod.fst

/-- Values currently stored in the cache. -/
def LRUCache.values (c : LRUCache) : List String := c.entries.map Prod.snd

/-- `AsyncLRUCache.get`: `cachetools.LRUCache.__getitem__` returns the value
on a hit and marks the key most-recently-used; a miss returns `None` and
leaves the cache unchanged. -/
def LRUCache.get (c : LRUCache) (k : Int) : Option String × LRUCache :=
  match c.entries.find? (fun p => p.1 = k) with
  | none => (none, c)
  | some (_, v) =>
      (some v, ⟨c.maxsize, (k, v) :: c.entries.filter (fun p => p.1 ≠ k)⟩)

/-- `AsyncLRUCache.set`: `cachetools.LRUCache.__setitem__` overwrites an
existing key (marking it most-recently-used) or inserts a new key, first
evicting least-recently-used entries until there is room (`popitem` pops
from the least-recently-used end). -/
def LRUCache.set (c : LRUCache) (k : Int) (v : String) : LRUCache :=
  let rest := c.entries.filter (fun p => p.1 ≠ k)
  ⟨c.maxsize, (k, v) :: rest.take (c.maxsize - 1)⟩

/-- `AsyncLRUCache.clear`: removes every entry. -/
def LRUCache.clear (c : LRUCache) : LRUCache := ⟨c.maxsize, []⟩

/-! ## app/models.py — SpeedingEvent -/

/-- Validated Motive speeding event (`SpeedingEvent` in `app/models.py`).
Python floats are modelled by exact rationals. -/
structure SpeedingEvent where
  action : String
  id : Int
  max_over_speed_in_kph : Rat
  max_posted_speed_limit_in_kph : Rat
  max_vehicle_speed : Rat
  driver_id : Int
  vehicle_id : Int
  status : Option String
deriving Repr, DecidableEq

/-- Digits of a string as a natural number; `none` when empty or any
character is not a digit. -/
def parseDigits (cs : List Char) : Option Nat :=
  if cs.isEmpty then none
  else
    cs.foldl
      (fun acc c =>
        match acc with
        | none => none
        | some n => if c.isDigit then some (n * 10 + (c.toNat - 48)) else none)
      (some 0)

/-- Decimal number parsing for `float(s)` on a string: optional sign, then
digits with an optional fractional part (`"12"`, `"-3.5"`, `".5"`, `"2."`).
Exponent, infinity and NaN forms are outside the modelled fragment and
parse as `none`. -/
def pyParseFloat (s : String) : Option Rat :=
  let cs := s.toList
  let (sign, cs) : Rat × List Char :=
    match cs with
    | '-' :: rest => (-1, rest)
    | '+' :: rest => (1, rest)
    | _ => (1, cs)
  let intPart := cs.takeWhile (fun c => c ≠ '.')
  let rest := cs.dropWhile (fun c => c ≠ '.')
  match rest with
  | [] => (parseDigits intPart).map (fun n => sign * n)
  | _ :: frac =>
      if intPart.isEmpty ∧ frac.isEmpty then none
      else if ¬ (intPart.all Char.isDigit) ∨ ¬ (frac.all Char.isDigit) then none
      else
        let ip : Nat := (parseDigits intPart).getD 0
        let fp : Nat := (parseDigits frac).getD 0
        some (sign * ((ip : Rat) + (fp : Rat) / ((10 : Rat) ^ frac.length)))

/-- Integer parsing for `int(s)` on a string: optional sign then digits
only (Python `int` rejects a fractional part). -/
def pyParseInt (s : String) : Option Int :=
  match s.toList with
  | '-' :: rest => (parseDigits rest).map (fun n => -(n : Int))
  | '+' :: rest => (parseDigits rest).map (fun n => (n : Int))
  | cs => (parseDigits cs).map (fun n => (n : Int))

/-- Pydantic lax coercion to `float`: JSON numbers pass through, numeric
strings are parsed; everything else fails. -/
def pydFloat : Option Json → Option Rat
  | some (Json.num q) => some q
  | some (Json.str s) => pyParseFloat s
  | _ => none

/-- Pydantic lax coercion to `int`: integral JSON numbers and integer
strings; everything else fails. -/
def pydInt : Option Json → Option Int
  | some (Json.num q) => if q.den = 1 then some q.num else none
  | some (Json.str s) => pyParseInt s
  | _ => none

/-- Pydantic coercion to `str`: strings only. -/
def pydStr : Option Json → Option String
  | some (Json.str s) => some s
  | _ => none

/-- `SpeedingEvent.model_validate(raw)` on a parsed JSON object: every
required field must be present and coercible; `status` is optional but,
when present, must be a string. -/
def SpeedingEvent.validate (fields : List (String × Json)) : Option SpeedingEvent := do
  let action ← pydStr (Json.getField fields "action")
  let id ← pydInt (Json.getField fields "id")
  let over ← pydFloat (Json.getField fields "max_over_speed_in_kph")
  let limit ← pydFloat (Json.getField fields "max_posted_speed_limit_in_kph")
  let speed ← pydFloat (Json.getField fields "max_vehicle_speed")
  let driver ← pydInt (Json.getField fields "driver_id")
  let vehicle ← pydInt (Json.getField fields "vehicle_id")
  let status ←
    match Json.getField fields "status" with
    | none => some none
    | some (Json.str s) => some (some s)
    | some _ => none
  pure ⟨action, id, over, limit, speed, driver, vehicle, status⟩

/-! ## app/services.py — external lookups

The outcome of the single outbound HTTP call is modelled by an explicit
response datatype; each branch corresponds to one `except` arm (or the
successful path) of the Python source. -/

/-- Outcome of `GET /v1/vehicles/:id` as seen by `get_vehicle_unit`.
`ok number` is a 2xx response with parseable JSON from which
`vehicle_data.get("vehicle", {}).get("number")` extracts `number` (`none`
when the wrapper or the field is absent or null).  `malformedJson` is a
2xx body that `response.json()` cannot parse and `unexpectedError` any
other exception (e.g. the extraction itself raising on a non-dict body) —
both are inside the try block and caught by `except Exception`. -/
inductive VehicleResponse where
  | ok (number : Option String)
  | httpStatus (code : Nat)
  | transportError
  | malformedJson
  | unexpectedError
deriving Repr, DecidableEq

/-- Is this response one of the failure modes (anything except a 2xx with
parseable JSON)? -/
def VehicleResponse.isFailure : VehicleResponse → Bool
  | VehicleResponse.ok _ => false
  | _ => true

/-- The failure modes after which `get_vehicle_unit` caches nothing:
401/403, any other non-404 HTTP status error, transport errors (including
timeouts), malformed JSON and unexpected exceptions — everything except a
2xx response and a 404. -/
def VehicleResponse.isNonCachingFailure : VehicleResponse → Bool
  | VehicleResponse.ok _ => false
  | VehicleResponse.httpStatus code => code ≠ 404
  | _ => true

/-- Result of one `get_vehicle_unit` call: the returned unit string, the
cache state afterwards, and whether the network was consulted. -/
structure LookupResult where
  unit : String
  cache : LRUCache
  networkCalled : Bool
deriving Repr, DecidableEq

/-- `if not unit_number: unit_number = "Unit Unknown"` — an absent or
empty `vehicle.number` is normalized to the sentinel. -/
def unitFromNumber : Option String → String
  | some s => if s = "" then "Unit Unknown" else s
  | none => "Unit Unknown"

/-- The cache-miss path of `get_vehicle_unit` (`app/services.py` lines
110–154): fetch from the API, normalize, and cache asymmetrically — 2xx
and 404 results are cached, 401/403, other HTTP errors, transport errors
and unexpected exceptions are not. -/
def get_vehicle_unit_fetch (resp : VehicleResponse) (cache : LRUCache)
    (vehicle_id : Int) : LookupResult :=
  match resp with
  | VehicleResponse.ok number =>
      let unit := unitFromNumber number
      ⟨unit, cache.set vehicle_id unit, true⟩
  | VehicleResponse.httpStatus code =>
      if code = 401 ∨ code = 403 then ⟨"Unit Unknown", cache, true⟩
      else if code = 404 then
        ⟨"Unit Unknown", cache.set vehicle_id "Unit Unknown", true⟩
      else ⟨"Unit Unknown", cache, true⟩
  | VehicleResponse.transportError => ⟨"Unit Unknown", cache, true⟩
  | VehicleResponse.malformedJson => ⟨"Unit Unknown", cache, true⟩
  | VehicleResponse.unexpectedError => ⟨"Unit Unknown", cache, true⟩

/-- `get_vehicle_unit(vehicle_id)`: consult the cache first (`if
cached_unit:` is a truthiness test, so an empty cached string counts as a
miss); on a miss run the fetch path. -/
def get_vehicle_unit (resp : VehicleResponse) (cache : LRUCache)
    (vehicle_id : Int) : LookupResult :=
  match cache.get vehicle_id with
  | (some cached, c1) =>
      if cached = "" then get_vehicle_unit_fetch resp c1 vehicle_id
      else ⟨cached, c1, false⟩
  | (none, c1) => get_vehicle_unit_fetch resp c1 vehicle_id

/-- Outcome of `GET /v1/speeding_events/:id` as seen by
`fetch_speeding_details`.  `ok body` is a 2xx response whose body parsed
as the JSON value `body`; the other constructors are the three `except`
arms (non-2xx status, transport error, any other exception — including a
2xx body that `response.json()` cannot parse). -/
inductive DetailsResponse where
  | ok (body : Json)
  | httpStatusError (code : Nat)
  | requestError
  | otherError

/-- Normalized record returned by `fetch_speeding_details`. -/
structure SpeedingDetails where
  lat : Option Rat
  lon : Option Rat
  speed : Option Rat
  limit : Option Rat
  vehicle_id : Option Int
deriving Repr, DecidableEq

/-- Python `int()` truncates toward zero. -/
def ratTruncate (q : Rat) : Int :=
  if q < 0 then -⌊-q⌋ else ⌊q⌋

/-- `float(x)` on a JSON value, with `TypeError` and `ValueError` mapped
to `none`: numbers pass through, booleans become 0 or 1, strings are
parsed, containers fail. -/
def pyFloatCoerce : Json → Option Rat
  | Json.num q => some q
  | Json.bool b => some (if b then 1 else 0)
  | Json.str s => pyParseFloat s
  | _ => none

/-- `int(x)` on a JSON value, with `TypeError` and `ValueError` mapped to
`none`: numbers truncate toward zero, booleans become 0 or 1, integer
strings are parsed, containers fail. -/
def pyIntCoerce : Json → Option Int
  | Json.num q => some (ratTruncate q)
  | Json.bool b => some (if b then 1 else 0)
  | Json.str s => pyParseInt s
  | _ => none

/-- Field extraction of `fetch_speeding_details` from the event object
(`app/services.py` lines 49–89): location via the
`start_location`/`location` fallback chain with `lat`/`latitude` and
`lon`/`longitude` alternates and top-level fallbacks, speed and limit via
their own `or`-chains, each coerced with `float`/`int` under try/except. -/
def extractDetails (event : List (String × Json)) : SpeedingDetails :=
  let loc : Option Json :=
    pyOr (pyOr (Json.getField event "start_location") (Json.getField event "location"))
      (some (Json.obj []))
  let locPair : Option Json × Option Json :=
    match loc with
    | some (Json.obj lfs) =>
        (pyOr (Json.getField lfs "lat") (Json.getField lfs "latitude"),
         pyOr (Json.getField lfs "lon") (Json.getField lfs "longitude"))
    | _ => (none, none)
  let lat0 : Option Json :=
    match locPair.1 with
    | none => pyOr (Json.getField event "lat") (Json.getField event "latitude")
    | some l => some l
  let lon0 : Option Json :=
    match locPair.2 with
    | none => pyOr (Json.getField event "lon") (Json.getField event "longitude")
    | some l => some l
  let speed0 : Option Json :=
    pyOr (Json.getField event "max_vehicle_speed") (Json.getField event "speed")
  let limit0 : Option Json :=
    pyOr (pyOr (Json.getField event "max_posted_speed_limit_in_kph")
           (Json.getField event "posted_speed_limit_in_kph"))
      (Json.getField event "limit")
  { lat := lat0.bind pyFloatCoerce
    lon := lon0.bind pyFloatCoerce
    speed := speed0.bind pyFloatCoerce
    limit := limit0.bind pyFloatCoerce
    vehicle_id := (Json.getField event "vehicle_id").bind pyIntCoerce }

/-- Post-parse normalization of `fetch_speeding_details`: `data.get(
"speeding_event")` is evaluated outside the try block, so when the parsed
2xx body is not a JSON object the attribute access raises
`AttributeError`, which propagates to the caller (the subsequent
`isinstance(event, dict)` guard is unreachable). -/
def normalize_details (data : Json) : Except String (Option SpeedingDetails) :=
  match data with
  | Json.obj fs =>
      let event : List (String × Json) :=
        match Json.getField fs "speeding_event" with
        | some (Json.obj efs) => efs
        | _ => fs
      Except.ok (some (extractDetails event))
  | _ => Except.error "AttributeError"

/-- The fixed delay before the request: `await asyncio.sleep(5)`. -/
def fetch_speeding_details_sleep_seconds : Nat := 5

/-- `fetch_speeding_details(event_id)` after the delay: the three `except`
arms return `None`; a successful parse goes through `normalize_details`,
which can raise on a non-object body. -/
def fetch_speeding_details (resp : DetailsResponse) :
    Except String (Option SpeedingDetails) :=
  match resp with
  | DetailsResponse.ok data => normalize_details data
  | DetailsResponse.httpStatusError _ => Except.ok none
  | DetailsResponse.requestError => Except.ok none
  | DetailsResponse.otherError => Except.ok none

/-! ## app/telegram_bot.py — alert dispatch -/

/-- `kph_to_mph`: fixed linear conversion, `kph * 0.621371` (the Python
float literal is modelled by the exact rational it denotes in source). -/
def kph_to_mph (kph : Rat) : Rat := kph * (0.621371 : Rat)

/-- The composed alert message: the fixed banner plus the four dynamic
fields (string formatting of the three speeds to one decimal place is kept
as the exact rational being formatted). -/
structure AlertMessage where
  unit_display : String
  limit_mph : Rat
  speed_mph : Rat
  over_mph : Rat
deriving Repr, DecidableEq

/-- Outcome of one `process_alert` run: `errorRaised` models the `except`
arm (log and re-raise, e.g. when re-validation fails), `suppressed` the
early return under the 5 mph threshold, `sent` a composed and delivered
message. -/
inductive AlertOutcome where
  | errorRaised
  | suppressed
  | sent (message : AlertMessage)
deriving Repr, DecidableEq

/-- Result of one `process_alert` run: outcome, cache state afterwards,
and whether a vehicle-lookup network call happened. -/
structure AlertResult where
  outcome : AlertOutcome
  cache : LRUCache
  networkCalled : Bool
deriving Repr, DecidableEq

/-- `process_alert(event_data)`: re-validate the raw object, convert the
three KPH fields to mph, suppress when the converted over-speed is below
5, otherwise resolve the unit (cache-then-network), build the display
string (embedding the raw vehicle id when the unit is unknown) and send
the message. -/
def process_alert (resp : VehicleResponse) (cache : LRUCache)
    (raw : List (String × Json)) : AlertResult :=
  match SpeedingEvent.validate raw with
  | none => ⟨AlertOutcome.errorRaised, cache, false⟩
  | some event =>
      let limit_mph := kph_to_mph event.max_posted_speed_limit_in_kph
      let speed_mph := kph_to_mph event.max_vehicle_speed
      let over_mph := kph_to_mph event.max_over_speed_in_kph
      if over_mph < 5 then ⟨AlertOutcome.suppressed, cache, false⟩
      else
        let r := get_vehicle_unit resp cache event.vehicle_id
        let unit_display :=
          if r.unit = "Unit Unknown" then
            "Unknown (ID: " ++ toString event.vehicle_id ++ ")"
          else r.unit
        ⟨AlertOutcome.sent ⟨unit_display, limit_mph, speed_mph, over_mph⟩,
         r.cache, r.networkCalled⟩

/-! ## app/main.py — webhook handler -/

/-- Modelled from the spec: `app/security.py` with `verify_webhook_signature`
is not among the sources (only its caller in `app/main.py` is).  The spec
defines it as computing the expected signature as a keyed hash (HMAC) over
the exact raw request bytes using the shared secret and comparing it
against the provided signature; any mismatch, missing header (the handler
substitutes `""`), or empty signature fails with Unauthorized.  The HMAC
itself is kept as an abstract parameter `hmac`. -/
def verify_webhook_signature (hmac : List Nat → String → String)
    (rawBody : List Nat) (signatureHeader secret : String) : Bool :=
  signatureHeader ≠ "" && signatureHeader = hmac rawBody secret

/-- HTTP response of the webhook handler: 401/403-class rejection from
signature verification, 400 on unparseable JSON, or 200 with a status
string and the accepted event ids. -/
inductive WebhookResponse where
  | unauthorized
  | badRequest
  | ok (status : String) (event_ids : List Int)
deriving Repr, DecidableEq

/-- Per-element acceptance in the webhook loop: skip non-objects, skip
elements whose `action` is not `"speeding_event_created"`, skip elements
failing `SpeedingEvent.model_validate`; otherwise yield the validated
event id. -/
def accept_event (raw : Json) : Option Int :=
  match raw with
  | Json.obj fields =>
      match Json.getField fields "action" with
      | some (Json.str a) =>
          if a = "speeding_event_created" then
            (SpeedingEvent.validate fields).map SpeedingEvent.id
          else none
      | _ => none
  | _ => none

/-- Batch normalization: a JSON array is the batch itself, anything else
is wrapped as a singleton batch. -/
def events_raw (payload : Json) : List Json :=
  match payload with
  | Json.arr xs => xs
  | p => [p]

/-- The accepted-event-id list the handler accumulates over the batch. -/
def accepted_events (payload : Json) : List Int :=
  (events_raw payload).filterMap accept_event

/-- `motive_webhook`: verify the signature over the raw bytes first and
reject the whole request on failure; then parse (`parsed` is the outcome
of `json.loads(body)`, passed explicitly so that the handler result can be
stated for every parse outcome); then filter the batch and answer 200 with
`"accepted"` ids or the `"ignored"` status. -/
def motive_webhook (hmac : List Nat → String → String) (secret : String)
    (body : List Nat) (signatureHeader : String) (parsed : Option Json) :
    WebhookResponse :=
  if verify_webhook_signature hmac body signatureHeader secret then
    match parsed with
    | none => WebhookResponse.badRequest
    | some payload =>
        let ids := accepted_events payload
        if ids.isEmpty then WebhookResponse.ok "ignored" []
        else WebhookResponse.ok "accepted" ids
  else WebhookResponse.unauthorized

/-- Concrete webhook payload from the spec scenario, with a variable
over-speed value: `{"action": "speeding_event_created", "id": 1,
"max_over_speed_in_kph": over, "max_posted_speed_limit_in_kph": 100,
"max_vehicle_speed": 110, "driver_id": 5, "vehicle_id": 42,
"status": null}`. -/
def samplePayload (over : Rat) : List (String × Json) :=
  [("action", Json.str "speeding_event_created"),
   ("id", Json.num 1),
   ("max_over_speed_in_kph", Json.num over),
   ("max_posted_speed_limit_in_kph", Json.num 100),
   ("max_vehicle_speed", Json.num 110),
   ("driver_id", Json.num 5),
   ("vehicle_id", Json.num 42),
   ("status", Json.null)]

/-! ## Helper lemmas -/

/-- `find?` in a prefix agrees with `find?` in the whole list as soon as
the prefix already contains a match. -/
theorem find?_take_of_exists {α : Type} (l : List α) (n : Nat) (p : α → Bool)
    (h : ∃ x ∈ l.take n, p x = true) :
    (l.take n).find? p = l.find? p := by
  induction l generalizing n with
  | nil => simp
  | cons a t ih =>
    cases n with
    | zero => simp at h
    | succ m =>
      by_cases ha : p a
      · simp [List.find?_cons_of_pos, ha]
      · obtain ⟨x, hx, hpx⟩ := h
        simp only [List.take_succ_cons, List.mem_cons] at hx
        rcases hx with rfl | hx
        · exact absurd hpx (by simp [ha])
        · simp only [List.take_succ_cons, List.find?_cons_of_neg, ha,
            not_false_iff]
          rw [List.find?_cons_of_neg _ ha, List.find?_cons_of_neg _ ha]
          exact ih m ⟨x, hx, hpx⟩

/-- Filtering out the entries of a different key does not change which
entry `find?` locates for key `k`. -/
theorem find?_filter_ne_key (l : List (Int × String)) (k k2 : Int)
    (h : k ≠ k2) :
    (l.filter (fun p => p.1 ≠ k2)).find? (fun p => p.1 = k)
      = l.find? (fun p => p.1 = k) := by
  induction l with
  | nil => rfl
  | cons a t ih =>
    by_cases hk2 : a.1 = k2
    · have hk : ¬ (a.1 = k) := by rw [hk2]; exact fun he => h he.symm
      rw [List.filter_cons_of_neg (by simpa using hk2),
        List.find?_cons_of_neg _ (by simpa using hk)]
      exact ih
    · by_cases hk : a.1 = k
      · rw [List.filter_cons_of_pos (by simpa using hk2),
          List.find?_cons_of_pos _ (by simpa using hk),
          List.find?_cons_of_pos _ (by simpa using hk)]
      · rw [List.filter_cons_of_pos (by simpa using hk2),
          List.find?_cons_of_neg _ (by simpa using hk),
          List.find?_cons_of_neg _ (by simpa using hk)]
        exact ih

/-- A `set` immediately followed by a `get` of the same key observes the
stored value. -/
theorem lru_get_set_same (c : LRUCache) (k : Int) (v : String) :
    ((c.set k v).get k).1 = some v := by
  simp [LRUCache.set, LRUCache.get]

/-- A miss leaves the cache unchanged. -/
theorem lru_get_miss_eq (c : LRUCache) (k : Int) (h : (c.get k).1 = none) :
    c.get k = (none, c) := by
  unfold LRUCache.get at h ⊢
  cases hf : c.entries.find? (fun p => p.1 = k) with
  | none => rfl
  | some a => rw [hf] at h; simp at h

/-- On a cache miss, `get_vehicle_unit` runs the fetch path against the
unchanged cache. -/
theorem get_vehicle_unit_miss (resp : VehicleResponse) (c : LRUCache) (k : Int)
    (h : (c.get k).1 = none) :
    get_vehicle_unit resp c k = get_vehicle_unit_fetch resp c k := by
  unfold get_vehicle_unit
  rw [lru_get_miss_eq c k h]

/-- On a cache hit with a non-empty value, `get_vehicle_unit` returns the
cached value without touching the network. -/
theorem get_vehicle_unit_cached (resp : VehicleResponse) (c : LRUCache) (k : Int)
    (v : String) (h : (c.get k).1 = some v) (hv : v ≠ "") :
    (get_vehicle_unit resp c k).unit = v
    ∧ (get_vehicle_unit resp c k).networkCalled = false := by
  unfold get_vehicle_unit
  cases hg : c.get k with
  | mk o c1 =>
    rw [hg] at h
    simp only at h
    subst h
    simp [hv]

/-- The fetch path always performs the network call. -/
theorem get_vehicle_unit_fetch_network (resp : VehicleResponse) (c : LRUCache)
    (k : Int) : (get_vehicle_unit_fetch resp c k).networkCalled = true := by
  cases resp <;> simp only [get_vehicle_unit_fetch]
  split
  · rfl
  · split <;> rfl

/-- The normalized unit name is never the empty string. -/
theorem unitFromNumber_ne_empty (n : Option String) : unitFromNumber n ≠ "" := by
  cases n with
  | none => decide
  | some s =>
      by_cases hs : s = ""
      · subst hs; decide
      · simp [unitFromNumber, hs]

/-- The cache update performed by a `get` never introduces a value that
was not stored before. -/
theorem lru_get_values_subset (c : LRUCache) (k : Int) (v : String)
    (h : v ∈ ((c.get k).2).values) : v ∈ c.values := by
  unfold LRUCache.get at h
  cases hf : c.entries.find? (fun p => p.1 = k) with
  | none => rw [hf] at h; exact h
  | some a =>
      rw [hf] at h
      simp only [LRUCache.values, List.map_cons, List.mem_cons] at h
      rcases h with rfl | h
      · exact List.mem_map_of_mem Prod.snd (List.mem_of_find?_eq_some hf)
      · obtain ⟨p, hp, hpv⟩ := List.mem_map.mp h
        exact hpv ▸ List.mem_map_of_mem Prod.snd (List.mem_of_mem_filter hp)

/-- The only value a `set` can introduce is the one being stored. -/
theorem lru_set_values_subset (c : LRUCache) (k : Int) (v w : String)
    (h : w ∈ (c.set k v).values) : w = v ∨ w ∈ c.values := by
  unfold LRUCache.set at h
  simp only [LRUCache.values, List.map_cons, List.mem_cons] at h
  rcases h with rfl | h
  · exact Or.inl rfl
  · obtain ⟨p, hp, hpv⟩ := List.mem_map.mp h
    exact Or.inr (hpv ▸ List.mem_map_of_mem Prod.snd
      (List.mem_of_mem_filter (List.mem_of_mem_take hp)))

/-! ## Claims -/

/-- C4: for the `AsyncLRUCache` with positive capacity `maxsize`: a `set`
followed by a `get` of the same key returns the value just stored; every
operation keeps the cache at or under `maxsize` entries; a `get` hit
refreshes recency by moving the key to the most-recently-used position; a
`set` of a fresh key at exact capacity evicts exactly the
least-recently-touched key (the last entry); and a `set` of a different
key leaves the value `get` observes for `k` unchanged as long as `k`
survives the eviction. -/
theorem C4_async_lru_cache (c : LRUCache) (k : Int) (v : String)
    (hm : 0 < c.maxsize) :
    ((c.set k v).get k).1 = some v
    ∧ (c.entries.length ≤ c.maxsize → (c.set k v).entries.length ≤ c.maxsize)
    ∧ (∀ v0 c1, c.get k = (some v0, c1) → c1.entries.head? = some (k, v0))
    ∧ (c.entries.length = c.maxsize → k ∉ c.keys →
        (c.set k v).keys = k :: c.keys.dropLast)
    ∧ (∀ k2 v2, k2 ≠ k → k ∈ (c.set k2 v2).keys →
        ((c.set k2 v2).get k).1 = (c.get k).1) := by
  refine ⟨?_, ?_, ?_, ?_, ?_⟩
  · simp [LRUCache.set, LRUCache.get]
  · intro hle
    have htake := List.length_take_le (c.maxsize - 1)
      (c.entries.filter (fun p => p.1 ≠ k))
    simp only [LRUCache.set, List.length_cons]
    omega
  · intro v0 c1 hget
    unfold LRUCache.get at hget
    rcases hfind : c.entries.find? (fun p => p.1 = k) with _ | ⟨a, b⟩
    · rw [hfind] at hget; simp at hget
    · rw [hfind] at hget
      simp only [Prod.mk.injEq, Option.some.injEq] at hget
      obtain ⟨hv, hc⟩ := hget
      rw [← hc]
      simp [hv]
  · intro hlen hnot
    have hfilter : c.entries.filter (fun p => p.1 ≠ k) = c.entries := by
      apply List.filter_eq_self.mpr
      intro p hp
      simp only [decide_eq_true_eq]
      intro he
      exact hnot (he ▸ List.mem_map_of_mem Prod.fst hp)
    have hdrop : (c.entries.map Prod.fst).dropLast
        = (c.entries.map Prod.fst).take (c.maxsize - 1) := by
      rw [List.dropLast_eq_take]
      congr 1
      simp [hlen]
    simp only [LRUCache.set, LRUCache.keys, hfilter, List.map_cons,
      List.map_take, hdrop]
  · intro k2 v2 hne hmem
    simp only [LRUCache.set, LRUCache.keys, List.map_cons, List.mem_cons] at hmem
    rcases hmem with heq | hmem
    · exact absurd heq.symm hne
    · obtain ⟨p, hp, hpk⟩ := List.mem_map.mp hmem
      have hhead : ¬ ((fun q : Int × String => decide (q.1 = k)) (k2, v2)) = true := by
        simp only [decide_eq_true_eq]
        exact hne
      have hfind :
          List.find? (fun q : Int × String => q.1 = k)
            ((k2, v2) :: ((c.entries.filter (fun q => q.1 ≠ k2)).take (c.maxsize - 1)))
            = List.find? (fun q : Int × String => q.1 = k) c.entries := by
        have h1 := @List.find?_cons_of_neg (Int × String)
          (fun q => decide (q.1 = k)) (k2, v2)
          ((c.entries.filter (fun q => q.1 ≠ k2)).take (c.maxsize - 1)) hhead
        rw [h1, find?_take_of_exists _ _ _ ⟨p, hp, by simpa using hpk⟩,
          find?_filter_ne_key _ _ _ (fun he => hne he.symm)]
      simp only [LRUCache.set, LRUCache.get, hfind]
      cases hf : List.find? (fun q : Int × String => q.1 = k) c.entries with
      | none => simp
      | some a => simp

/-- C4 witness: the LRU properties at a concrete two-slot cache. -/
theorem C4_async_lru_cache_witness :
    0 < (LRUCache.mk 2 [(1, "u1")]).maxsize
    ∧ ((((LRUCache.mk 2 [(1, "u1")]).set 5 "v5").get 5).1 = some "v5"
      ∧ ((LRUCache.mk 2 [(1, "u1")]).entries.length
            ≤ (LRUCache.mk 2 [(1, "u1")]).maxsize →
          ((LRUCache.mk 2 [(1, "u1")]).set 5 "v5").entries.length
            ≤ (LRUCache.mk 2 [(1, "u1")]).maxsize)
      ∧ (∀ v0 c1, (LRUCache.mk 2 [(1, "u1")]).get 5 = (some v0, c1) →
          c1.entries.head? = some (5, v0))
      ∧ ((LRUCache.mk 2 [(1, "u1")]).entries.length
            = (LRUCache.mk 2 [(1, "u1")]).maxsize →
          (5 : Int) ∉ (LRUCache.mk 2 [(1, "u1")]).keys →
          ((LRUCache.mk 2 [(1, "u1")]).set 5 "v5").keys
            = 5 :: (LRUCache.mk 2 [(1, "u1")]).keys.dropLast)
      ∧ (∀ k2 v2, k2 ≠ 5 →
          (5 : Int) ∈ ((LRUCache.mk 2 [(1, "u1")]).set k2 v2).keys →
          (((LRUCache.mk 2 [(1, "u1")]).set k2 v2).get 5).1
            = ((LRUCache.mk 2 [(1, "u1")]).get 5).1)) :=
  ⟨by decide, C4_async_lru_cache (LRUCache.mk 2 [(1, "u1")]) 5 "v5" (by decide)⟩

/-- C2: `get_vehicle_unit` (resolveUnit) is a total function in the model
(it never propagates an exception), and on a cache miss every failure
mode of the external call — network timeout or other transport error,
401, 403, 404, any other HTTP status error, a malformed JSON response, or
an unexpected exception — yields the sentinel `"Unit Unknown"`. -/
theorem C2_resolve_unit_never_fails (resp : VehicleResponse) (cache : LRUCache)
    (vid : Int) (hmiss : (cache.get vid).1 = none)
    (hfail : resp.isFailure = true) :
    (get_vehicle_unit resp cache vid).unit = "Unit Unknown" := by
  rw [get_vehicle_unit_miss resp cache vid hmiss]
  cases resp with
  | ok n => simp [VehicleResponse.isFailure] at hfail
  | httpStatus code =>
      simp only [get_vehicle_unit_fetch]
      split
      · rfl
      · split <;> rfl
  | transportError => rfl
  | malformedJson => rfl
  | unexpectedError => rfl

/-- C2 witness: a transport error on an empty cache resolves to the
sentinel. -/
theorem C2_resolve_unit_never_fails_witness :
    ((LRUCache.mk 100 []).get 7).1 = none
    ∧ VehicleResponse.transportError.isFailure = true
    ∧ (get_vehicle_unit VehicleResponse.transportError (LRUCache.mk 100 []) 7).unit
        = "Unit Unknown" :=
  ⟨by decide, by decide,
    C2_resolve_unit_never_fails VehicleResponse.transportError
      (LRUCache.mk 100 []) 7 (by decide) (by decide)⟩

/-- C3: caching after a miss is asymmetric by error class.  A successful
response caches the normalized unit name and a 404 caches the sentinel,
so in both cases a second call for the same id performs no network call;
any non-caching failure (401/403, other HTTP status, transport error,
malformed JSON, unexpected exception) leaves the cache unchanged, so a
second call for the same id performs the network call again. -/
theorem C3_cache_policy_asymmetric (cache : LRUCache) (vid : Int)
    (hmiss : (cache.get vid).1 = none) :
    (∀ number,
        ((get_vehicle_unit (VehicleResponse.ok number) cache vid).cache.get vid).1
          = some (unitFromNumber number))
    ∧ ((get_vehicle_unit (VehicleResponse.httpStatus 404) cache vid).cache.get vid).1
        = some "Unit Unknown"
    ∧ (∀ number resp2,
        (get_vehicle_unit resp2
          (get_vehicle_unit (VehicleResponse.ok number) cache vid).cache vid).networkCalled
          = false)
    ∧ (∀ resp2,
        (get_vehicle_unit resp2
          (get_vehicle_unit (VehicleResponse.httpStatus 404) cache vid).cache vid).networkCalled
          = false)
    ∧ (∀ resp, resp.isNonCachingFailure = true →
        (get_vehicle_unit resp cache vid).cache = cache
        ∧ ∀ resp2, (get_vehicle_unit resp2
            (get_vehicle_unit resp cache vid).cache vid).networkCalled = true) := by
  have hok : ∀ number, (get_vehicle_unit (VehicleResponse.ok number) cache vid).cache
      = cache.set vid (unitFromNumber number) := by
    intro number
    rw [get_vehicle_unit_miss _ cache vid hmiss]
    rfl
  have h404 : (get_vehicle_unit (VehicleResponse.httpStatus 404) cache vid).cache
      = cache.set vid "Unit Unknown" := by
    rw [get_vehicle_unit_miss _ cache vid hmiss]
    rfl
  refine ⟨?_, ?_, ?_, ?_, ?_⟩
  · intro number
    rw [hok number]
    exact lru_get_set_same cache vid (unitFromNumber number)
  · rw [h404]
    exact lru_get_set_same cache vid "Unit Unknown"
  · intro number resp2
    rw [hok number]
    exact (get_vehicle_unit_cached resp2 _ vid _
      (lru_get_set_same cache vid (unitFromNumber number))
      (unitFromNumber_ne_empty number)).2
  · intro resp2
    rw [h404]
    exact (get_vehicle_unit_cached resp2 _ vid _
      (lru_get_set_same cache vid "Unit Unknown") (by decide)).2
  · intro resp hresp
    have hcache : (get_vehicle_unit resp cache vid).cache = cache := by
      rw [get_vehicle_unit_miss resp cache vid hmiss]
      cases resp with
      | ok n => simp [VehicleResponse.isNonCachingFailure] at hresp
      | httpStatus code =>
          simp only [VehicleResponse.isNonCachingFailure,
            decide_eq_true_eq] at hresp
          simp only [get_vehicle_unit_fetch]
          by_cases h1 : code = 401 ∨ code = 403
          · rw [if_pos h1]
          · rw [if_neg h1, if_neg hresp]
      | transportError => rfl
      | malformedJson => rfl
      | unexpectedError => rfl
    refine ⟨hcache, ?_⟩
    intro resp2
    rw [hcache, get_vehicle_unit_miss resp2 cache vid hmiss]
    exact get_vehicle_unit_fetch_network resp2 cache vid

/-- C3 witness: on an empty cache, a 404 caches the sentinel while a 401
caches nothing. -/
theorem C3_cache_policy_asymmetric_witness :
    ((LRUCache.mk 100 []).get 7).1 = none
    ∧ ((get_vehicle_unit (VehicleResponse.httpStatus 404)
          (LRUCache.mk 100 []) 7).cache.get 7).1 = some "Unit Unknown"
    ∧ (∀ resp, resp.isNonCachingFailure = true →
        (get_vehicle_unit resp (LRUCache.mk 100 []) 7).cache = LRUCache.mk 100 []
        ∧ ∀ resp2, (get_vehicle_unit resp2
            (get_vehicle_unit resp (LRUCache.mk 100 []) 7).cache 7).networkCalled
            = true) :=
  ⟨by decide,
    (C3_cache_policy_asymmetric (LRUCache.mk 100 []) 7 (by decide)).2.1,
    (C3_cache_policy_asymmetric (LRUCache.mk 100 []) 7 (by decide)).2.2.2.2⟩

/-- C10: every value `get_vehicle_unit` can put into the cache is a
non-empty string, so on caches satisfying that invariant the truthiness
hit-test coincides with a presence test; and if an empty string were ever
cached for an id, the lookup for that id would be treated as a miss and
perform the network call. -/
theorem C10_cached_values_nonempty (resp : VehicleResponse) (cache : LRUCache)
    (vid : Int) :
    ((∀ v ∈ cache.values, v ≠ "") →
        ∀ v ∈ (get_vehicle_unit resp cache vid).cache.values, v ≠ "")
    ∧ (∀ v, (cache.get vid).1 = some v → v ≠ "" →
        (get_vehicle_unit resp cache vid).networkCalled = false)
    ∧ ((cache.get vid).1 = some "" →
        (get_vehicle_unit resp cache vid).networkCalled = true) := by
  refine ⟨?_, ?_, ?_⟩
  · intro hinv v hv
    -- every value of the result cache is an old value or a fresh non-empty one
    have hstep : ∀ w, w ∈ (get_vehicle_unit resp cache vid).cache.values →
        w ∈ cache.values ∨ w ≠ "" := by
      intro w hw
      unfold get_vehicle_unit at hw
      cases hg : cache.get vid with
      | mk o c1 =>
        rw [hg] at hw
        have hc1 : ∀ u, u ∈ c1.values → u ∈ cache.values := by
          intro u hu
          exact lru_get_values_subset cache vid u (hg ▸ hu)
        have hfetch : ∀ u, u ∈ (get_vehicle_unit_fetch resp c1 vid).cache.values →
            u ∈ cache.values ∨ u ≠ "" := by
          intro u hu
          cases resp with
          | ok n =>
              rcases lru_set_values_subset c1 vid _ u hu with rfl | h
              · exact Or.inr (unitFromNumber_ne_empty n)
              · exact Or.inl (hc1 u h)
          | httpStatus code =>
              simp only [get_vehicle_unit_fetch] at hu
              rcases hcode : decide (code = 401 ∨ code = 403) with _ | _
              · rw [if_neg (by simpa using hcode)] at hu
                rcases hcode4 : decide (code = 404) with _ | _
                · rw [if_neg (by simpa using hcode4)] at hu
                  exact Or.inl (hc1 u hu)
                · rw [if_pos (by simpa using hcode4)] at hu
                  rcases lru_set_values_subset c1 vid _ u hu with rfl | h
                  · exact Or.inr (by decide)
                  · exact Or.inl (hc1 u h)
              · rw [if_pos (by simpa using hcode)] at hu
                exact Or.inl (hc1 u hu)
          | transportError => exact Or.inl (hc1 u hu)
          | malformedJson => exact Or.inl (hc1 u hu)
          | unexpectedError => exact Or.inl (hc1 u hu)
        cases o with
        | none => exact hfetch w hw
        | some cached =>
            dsimp only at hw
            by_cases hce : cached = ""
            · rw [if_pos hce] at hw
              exact hfetch w hw
            · rw [if_neg hce] at hw
              exact Or.inl (hc1 w hw)
    rcases hstep v hv with h | h
    · exact hinv v h
    · exact h
  · intro v hvh hvne
    exact (get_vehicle_unit_cached resp cache vid v hvh hvne).2
  · intro hemp
    unfold get_vehicle_unit
    cases hg : cache.get vid with
    | mk o c1 =>
      rw [hg] at hemp
      simp only at hemp
      subst hemp
      simp only [if_pos rfl]
      exact get_vehicle_unit_fetch_network resp c1 vid

/-- C10 witness: with the sentinel cached the lookup is a hit without
network traffic, and with an empty string cached it falls through to the
network. -/
theorem C10_cached_values_nonempty_witness :
    ((∀ v ∈ (LRUCache.mk 100 [(7, "")]).values, v ≠ "") →
        ∀ v ∈ (get_vehicle_unit VehicleResponse.transportError
          (LRUCache.mk 100 [(7, "")]) 7).cache.values, v ≠ "")
    ∧ (∀ v, ((LRUCache.mk 100 [(7, "")]).get 7).1 = some v → v ≠ "" →
        (get_vehicle_unit VehicleResponse.transportError
          (LRUCache.mk 100 [(7, "")]) 7).networkCalled = false)
    ∧ (((LRUCache.mk 100 [(7, "")]).get 7).1 = some "" →
        (get_vehicle_unit VehicleResponse.transportError
          (LRUCache.mk 100 [(7, "")]) 7).networkCalled = true)
    ∧ (get_vehicle_unit VehicleResponse.transportError
        (LRUCache.mk 100 [(7, "")]) 7).networkCalled = true :=
  ⟨(C10_cached_values_nonempty VehicleResponse.transportError
      (LRUCache.mk 100 [(7, "")]) 7).1,
   (C10_cached_values_nonempty VehicleResponse.transportError
      (LRUCache.mk 100 [(7, "")]) 7).2.1,
   (C10_cached_values_nonempty VehicleResponse.transportError
      (LRUCache.mk 100 [(7, "")]) 7).2.2,
   (C10_cached_values_nonempty VehicleResponse.transportError
      (LRUCache.mk 100 [(7, "")]) 7).2.2 (by decide)⟩

/-- C5: `process_alert` converts the three KPH speed fields to mph by
multiplying by exactly 0.621371, suppresses the alert entirely (no
message, no error, no delivery) whenever the converted over-speed is
below 5.0 mph, and in particular suppresses every otherwise-valid event
with `max_over_speed_in_kph = 5` (≈ 3.1 mph) while one with
`max_over_speed_in_kph = 10` (≈ 6.2 mph) proceeds to a sent message. -/
theorem C5_threshold_and_conversion :
    (∀ raw e resp cache, SpeedingEvent.validate raw = some e →
        kph_to_mph e.max_over_speed_in_kph < 5 →
        (process_alert resp cache raw).outcome = AlertOutcome.suppressed)
    ∧ (∀ raw e resp cache m, SpeedingEvent.validate raw = some e →
        (process_alert resp cache raw).outcome = AlertOutcome.sent m →
        m.limit_mph = e.max_posted_speed_limit_in_kph * (0.621371 : Rat)
        ∧ m.speed_mph = e.max_vehicle_speed * (0.621371 : Rat)
        ∧ m.over_mph = e.max_over_speed_in_kph * (0.621371 : Rat))
    ∧ (∀ raw e resp cache, SpeedingEvent.validate raw = some e →
        e.max_over_speed_in_kph = 5 →
        (process_alert resp cache raw).outcome = AlertOutcome.suppressed)
    ∧ (∀ raw e resp cache, SpeedingEvent.validate raw = some e →
        e.max_over_speed_in_kph = 10 →
        ∃ m, (process_alert resp cache raw).outcome = AlertOutcome.sent m) := by
  refine ⟨?_, ?_, ?_, ?_⟩
  · intro raw e resp cache hval hlt
    unfold process_alert
    rw [hval]
    dsimp only
    rw [if_pos hlt]
  · intro raw e resp cache m hval hsent
    unfold process_alert at hsent
    rw [hval] at hsent
    dsimp only at hsent
    by_cases hlt : kph_to_mph e.max_over_speed_in_kph < 5
    · rw [if_pos hlt] at hsent
      exact absurd hsent (by simp)
    · rw [if_neg hlt] at hsent
      cases hsent
      exact ⟨rfl, rfl, rfl⟩
  · intro raw e resp cache hval hover
    unfold process_alert
    rw [hval]
    dsimp only
    rw [if_pos (by rw [hover]; norm_num [kph_to_mph])]
  · intro raw e resp cache hval hover
    unfold process_alert
    rw [hval]
    dsimp only
    rw [if_neg (by rw [hover]; norm_num [kph_to_mph])]
    exact ⟨_, rfl⟩

/-- C5 witness: the spec scenario payloads with over-speed 5 and 10. -/
theorem C5_threshold_and_conversion_witness :
    SpeedingEvent.validate (samplePayload 5)
      = some ⟨"speeding_event_created", 1, 5, 100, 110, 5, 42, none⟩
    ∧ SpeedingEvent.validate (samplePayload 10)
      = some ⟨"speeding_event_created", 1, 10, 100, 110, 5, 42, none⟩
    ∧ (process_alert VehicleResponse.transportError (LRUCache.mk 100 [])
        (samplePayload 5)).outcome = AlertOutcome.suppressed
    ∧ ∃ m, (process_alert (VehicleResponse.ok (some "17")) (LRUCache.mk 100 [])
        (samplePayload 10)).outcome = AlertOutcome.sent m :=
  ⟨by decide, by decide,
    C5_threshold_and_conversion.2.2.1 (samplePayload 5)
      ⟨"speeding_event_created", 1, 5, 100, 110, 5, 42, none⟩
      VehicleResponse.transportError (LRUCache.mk 100 []) (by decide) (by decide),
    C5_threshold_and_conversion.2.2.2 (samplePayload 10)
      ⟨"speeding_event_created", 1, 10, 100, 110, 5, 42, none⟩
      (VehicleResponse.ok (some "17")) (LRUCache.mk 100 []) (by decide) (by decide)⟩

/-- C9: when the converted over-speed is below the 5 mph threshold,
`process_alert` returns before resolving the vehicle unit: no network
call is made and the unit-resolution cache is left completely
unchanged. -/
theorem C9_suppressed_event_no_lookup (resp : VehicleResponse)
    (cache : LRUCache) (raw : List (String × Json)) (e : SpeedingEvent)
    (hval : SpeedingEvent.validate raw = some e)
    (hlt : kph_to_mph e.max_over_speed_in_kph < 5) :
    (process_alert resp cache raw).cache = cache
    ∧ (process_alert resp cache raw).networkCalled = false := by
  unfold process_alert
  rw [hval]
  dsimp only
  rw [if_pos hlt]
  exact ⟨rfl, rfl⟩

/-- C9 witness: the over-speed-5 payload leaves a non-trivial cache
untouched and makes no network call. -/
theorem C9_suppressed_event_no_lookup_witness :
    SpeedingEvent.validate (samplePayload 5)
      = some ⟨"speeding_event_created", 1, 5, 100, 110, 5, 42, none⟩
    ∧ kph_to_mph 5 < 5
    ∧ ((process_alert (VehicleResponse.ok (some "17"))
          (LRUCache.mk 100 [(9, "u9")]) (samplePayload 5)).cache
            = LRUCache.mk 100 [(9, "u9")]
        ∧ (process_alert (VehicleResponse.ok (some "17"))
            (LRUCache.mk 100 [(9, "u9")]) (samplePayload 5)).networkCalled
              = false) :=
  ⟨by decide, by norm_num [kph_to_mph],
    C9_suppressed_event_no_lookup (VehicleResponse.ok (some "17"))
      (LRUCache.mk 100 [(9, "u9")]) (samplePayload 5)
      ⟨"speeding_event_created", 1, 5, 100, 110, 5, 42, none⟩
      (by decide) (by norm_num [kph_to_mph])⟩

/-- C1: `verify` succeeds exactly when the signature header equals the
HMAC of the raw request bytes under the secret (HMAC digests are
non-empty, hypothesis `hhex`); a missing header arrives as `""` and an
empty signature always fails; and on any mismatch the whole request is
answered Unauthorized for every possible parse outcome, i.e. before any
JSON parsing or event processing. -/
theorem C1_signature_gate (hmac : List Nat → String → String)
    (body : List Nat) (secret sig : String)
    (hhex : hmac body secret ≠ "") :
    (verify_webhook_signature hmac body sig secret = true
      ↔ sig = hmac body secret)
    ∧ verify_webhook_signature hmac body "" secret = false
    ∧ (sig ≠ hmac body secret →
        ∀ parsed, motive_webhook hmac secret body sig parsed
          = WebhookResponse.unauthorized) := by
  refine ⟨?_, ?_, ?_⟩
  · simp only [verify_webhook_signature, Bool.and_eq_true, decide_eq_true_eq,
      ne_eq]
    constructor
    · exact fun h => h.2
    · intro h
      exact ⟨fun he => hhex (h ▸ he), h⟩
  · simp [verify_webhook_signature]
  · intro hne parsed
    simp [motive_webhook, verify_webhook_signature, hne]

/-- C1 witness: a fixed two-byte body with a constant digest function. -/
theorem C1_signature_gate_witness :
    (fun (_ : List Nat) (_ : String) => "aa") [1, 2] "k" ≠ ""
    ∧ ((verify_webhook_signature (fun _ _ => "aa") [1, 2] "xx" "k" = true
          ↔ "xx" = (fun (_ : List Nat) (_ : String) => "aa") [1, 2] "k")
      ∧ verify_webhook_signature (fun _ _ => "aa") [1, 2] "" "k" = false
      ∧ ("xx" ≠ (fun (_ : List Nat) (_ : String) => "aa") [1, 2] "k" →
          ∀ parsed, motive_webhook (fun _ _ => "aa") "k" [1, 2] "xx" parsed
            = WebhookResponse.unauthorized)) :=
  ⟨by decide, C1_signature_gate (fun _ _ => "aa") [1, 2] "k" "xx" (by decide)⟩

/-- C6: a single top-level JSON object and the one-element batch wrapping
it produce the same accepted-event-id list, both at the normalization
level and through the full handler response. -/
theorem C6_single_vs_batch (fields : List (String × Json)) :
    accepted_events (Json.obj fields)
      = accepted_events (Json.arr [Json.obj fields])
    ∧ ∀ (hmac : List Nat → String → String) (secret : String)
        (body : List Nat) (sig : String),
        motive_webhook hmac secret body sig (some (Json.obj fields))
          = motive_webhook hmac secret body sig
              (some (Json.arr [Json.obj fields])) := by
  exact ⟨rfl, fun hmac secret body sig => rfl⟩

/-- C7: batch elements are processed independently and a bad element never
fails the batch — non-objects, wrong-action elements and
validation-failing elements are each skipped while the rest continue —
and when the accepted list is empty the handler still answers 200 with
the `"ignored"` status. -/
theorem C7_independent_skips_and_ignored :
    (∀ j, j.isObj = false → accept_event j = none)
    ∧ (∀ fields, (∀ a, Json.getField fields "action" = some (Json.str a) →
          a ≠ "speeding_event_created") →
        accept_event (Json.obj fields) = none)
    ∧ (∀ fields, SpeedingEvent.validate fields = none →
        accept_event (Json.obj fields) = none)
    ∧ (∀ j xs, accept_event j = none →
        accepted_events (Json.arr (j :: xs)) = accepted_events (Json.arr xs))
    ∧ (∀ (hmac : List Nat → String → String) (secret : String)
          (body : List Nat) (sig : String) (payload : Json),
        verify_webhook_signature hmac body sig secret = true →
        accepted_events payload = [] →
        motive_webhook hmac secret body sig (some payload)
          = WebhookResponse.ok "ignored" []) := by
  refine ⟨?_, ?_, ?_, ?_, ?_⟩
  · intro j hj
    cases j with
    | obj fs => simp [Json.isObj] at hj
    | null => rfl
    | bool b => rfl
    | num q => rfl
    | str s => rfl
    | arr xs => rfl
  · intro fields hact
    simp only [accept_event]
    cases hg : Json.getField fields "action" with
    | none => rfl
    | some v =>
        cases v with
        | str a =>
            dsimp only
            rw [if_neg (hact a hg)]
        | null => rfl
        | bool b => rfl
        | num q => rfl
        | arr xs => rfl
        | obj fs => rfl
  · intro fields hv
    simp only [accept_event]
    cases hg : Json.getField fields "action" with
    | none => rfl
    | some v =>
        cases v with
        | str a =>
            dsimp only
            by_cases ha : a = "speeding_event_created"
            · rw [if_pos ha, hv]
              rfl
            · rw [if_neg ha]
        | null => rfl
        | bool b => rfl
        | num q => rfl
        | arr xs => rfl
        | obj fs => rfl
  · intro j xs hj
    simp [accepted_events, events_raw, List.filterMap_cons, hj]
  · intro hmac secret body sig payload hver hempty
    simp [motive_webhook, hver, hempty]

/-- C7 witness: a numeric element is skipped without failing the batch,
and a wrong-action object yields the 200 `"ignored"` response. -/
theorem C7_independent_skips_and_ignored_witness :
    (Json.isObj (Json.num 3) = false ∧ accept_event (Json.num 3) = none)
    ∧ (accept_event (Json.num 3) = none
      ∧ accepted_events (Json.arr [Json.num 3, Json.obj (samplePayload 10)])
          = accepted_events (Json.arr [Json.obj (samplePayload 10)]))
    ∧ (verify_webhook_signature (fun _ _ => "aa") [1] "aa" "k" = true
      ∧ accepted_events (Json.obj [("action", Json.str "other_event")]) = []
      ∧ motive_webhook (fun _ _ => "aa") "k" [1] "aa"
          (some (Json.obj [("action", Json.str "other_event")]))
          = WebhookResponse.ok "ignored" []) :=
  ⟨⟨rfl, C7_independent_skips_and_ignored.1 (Json.num 3) rfl⟩,
   ⟨rfl, C7_independent_skips_and_ignored.2.2.2.1 (Json.num 3)
      [Json.obj (samplePayload 10)] rfl⟩,
   ⟨by decide, by decide,
    C7_independent_skips_and_ignored.2.2.2.2 (fun _ _ => "aa") "k" [1] "aa"
      (Json.obj [("action", Json.str "other_event")]) (by decide) (by decide)⟩⟩

/-- C8: `fetch_speeding_details` evaluated across its outcomes.  The three
`except` arms do return `None`, and the delay constant is 5 seconds; but
contrary to the claim the function is not raise-free: a 2xx response
whose JSON body is not an object (here the array `[]`) raises
`AttributeError` at `data.get("speeding_event")`, which sits outside the
try block. -/
theorem C8_fetch_details_attribute_error :
    fetch_speeding_details (DetailsResponse.ok (Json.arr []))
      = Except.error "AttributeError"
    ∧ fetch_speeding_details (DetailsResponse.ok (Json.str "oops"))
      = Except.error "AttributeError"
    ∧ fetch_speeding_details (DetailsResponse.httpStatusError 500) = Except.ok none
    ∧ fetch_speeding_details DetailsResponse.requestError = Except.ok none
    ∧ fetch_speeding_details DetailsResponse.otherError = Except.ok none
    ∧ fetch_speeding_details_sleep_seconds = 5 :=
  ⟨rfl, rfl, rfl, rfl, rfl, rfl⟩

end Safetytni
